import Mathlib

/-!
Shallow embedding of the order-service core (order-service-mvp).

Source files embedded:
  - src/core/entities/product.py      (Product, reserve_stock, release_stock)
  - src/core/entities/order.py        (OrderItem, Order, add_item, calculate_total,
                                       confirm, cancel)
  - src/core/value_objects/order_status.py (OrderStatus)
  - src/infrastructure/database/base_repository.py (dict-backed store: save /
    get_by_id / delete; Python dicts are modelled as association lists with
    replace-or-append insertion, which matches dict assignment semantics)
  - src/services/order_service.py     (OrderService.create_order,
                                       get_order_by_id, cancel_order)

Python `Decimal` is modelled as `ℚ` (both give exact arithmetic for the
operations used here: addition and multiplication by integers); Python `int`
as `Int`; `UUID` as `Nat`.  A method that can raise is modelled as a function
returning `Except`; since the raising methods mutate state only after all
checks have passed, a raised exception leaves the receiver unmodified, which
the `Except`-returning encoding represents by not producing an updated value.
-/

/-- Order status enum (src/core/value_objects/order_status.py). -/
inductive OrderStatus where
  | PENDING
  | CONFIRMED
  | CANCELLED
  | DELIVERED
deriving DecidableEq, Repr

/-- String value of a status, as in the Python `str`-valued enum. -/
def OrderStatus.value : OrderStatus → String
  | .PENDING => "PENDING"
  | .CONFIRMED => "CONFIRMED"
  | .CANCELLED => "CANCELLED"
  | .DELIVERED => "DELIVERED"

/-- Product entity (src/core/entities/product.py). -/
structure Product where
  id : Nat
  name : String
  description : String
  price : ℚ
  stock : Int
deriving DecidableEq, Repr

/-- Errors raised by `Product.reserve_stock` / `Product.release_stock`
(Python raises `ValueError` with the corresponding message; the numeric data
interpolated into the message is carried as constructor fields). -/
inductive StockError where
  | invalidQuantity
  | insufficient (available : Int) (requested : Int)
deriving DecidableEq, Repr

/-- Product dataclass construction including `__post_init__` validation. -/
def Product.make (id : Nat) (name description : String) (price : ℚ)
    (stock : Int) : Except String Product :=
  if name = "" then .error "Product name cannot be empty"
  else if price < 0 then .error "Price cannot be negative"
  else if stock < 0 then .error "Stock cannot be negative"
  else .ok { id := id, name := name, description := description,
             price := price, stock := stock }

/-- Product.reserve_stock (src/core/entities/product.py lines 27-35). -/
def Product.reserve_stock (p : Product) (quantity : Int) :
    Except StockError Product :=
  if quantity ≤ 0 then .error .invalidQuantity
  else if p.stock < quantity then .error (.insufficient p.stock quantity)
  else .ok { p with stock := p.stock - quantity }

/-- Product.release_stock (src/core/entities/product.py lines 37-41). -/
def Product.release_stock (p : Product) (quantity : Int) :
    Except StockError Product :=
  if quantity ≤ 0 then .error .invalidQuantity
  else .ok { p with stock := p.stock + quantity }

/-- Order line item (src/core/entities/order.py, `OrderItem`). -/
structure OrderItem where
  product_id : Nat
  product_name : String
  quantity : Int
  price : ℚ
deriving DecidableEq, Repr

/-- OrderItem construction including `__post_init__` validation. -/
def OrderItem.make (product_id : Nat) (product_name : String) (quantity : Int)
    (price : ℚ) : Except String OrderItem :=
  if quantity ≤ 0 then .error "Quantity must be positive"
  else if price < 0 then .error "Price cannot be negative"
  else .ok { product_id := product_id, product_name := product_name,
             quantity := quantity, price := price }

/-- OrderItem.subtotal. -/
def OrderItem.subtotal (it : OrderItem) : ℚ :=
  it.price * (it.quantity : ℚ)

/-- Order entity (src/core/entities/order.py, `Order`). -/
structure Order where
  id : Nat
  customer_id : Nat
  items : List OrderItem
  status : OrderStatus
deriving DecidableEq, Repr

/-- Order.add_item; validation happens in `OrderItem.__post_init__`, whose
`ValueError` propagates to the caller. -/
def Order.add_item (o : Order) (product_id : Nat) (product_name : String)
    (quantity : Int) (price : ℚ) : Except String Order :=
  (OrderItem.make product_id product_name quantity price).map
    (fun it => { o with items := o.items ++ [it] })

/-- Order.calculate_total: `sum(item.subtotal for item in self.items)`. -/
def Order.calculate_total (o : Order) : ℚ :=
  (o.items.map OrderItem.subtotal).sum

/-- Order.confirm (src/core/entities/order.py lines 59-65). -/
def Order.confirm (o : Order) : Except String Order :=
  if o.items = [] then .error "Cannot confirm empty order"
  else if o.status ≠ .PENDING then
    .error ("Cannot confirm order with status " ++ o.status.value)
  else .ok { o with status := .CONFIRMED }

/-- Order.cancel (src/core/entities/order.py lines 67-73). -/
def Order.cancel (o : Order) : Except String Order :=
  if o.status = .DELIVERED then .error "Cannot cancel delivered order"
  else if o.status = .CANCELLED then .error "Order already cancelled"
  else .ok { o with status := .CANCELLED }

/-- Lookup in a Python dict modelled as an association list
(`storage.get(key)`). -/
def dictGet {α : Type} : List (Nat × α) → Nat → Option α
  | [], _ => none
  | (k, v) :: rest, key => if k = key then some v else dictGet rest key

/-- Dict assignment `storage[key] = value`: replace the entry for an existing
key in place, append a new key at the end. -/
def dictPut {α : Type} : List (Nat × α) → Nat → α → List (Nat × α)
  | [], key, value => [(key, value)]
  | (k, v) :: rest, key, value =>
    if k = key then (key, value) :: rest
    else (k, v) :: dictPut rest key value

/-- BaseRepository.delete (src/infrastructure/database/base_repository.py
lines 31-36): `if entity_id in storage: del storage[entity_id]; return True
else: return False`. -/
def dictDelete {α : Type} (d : List (Nat × α)) (key : Nat) :
    List (Nat × α) × Bool :=
  if (dictGet d key).isSome then
    (d.filter (fun kv => kv.1 != key), true)
  else (d, false)

/-- Combined state of the two stores the workflow touches: the Catalog Store
(product repository) and the Order Store (order repository). -/
structure SysState where
  products : List (Nat × Product)
  orders : List (Nat × Order)
deriving DecidableEq, Repr

/-- Errors raised by `OrderService.create_order`.  `insufficientStock e`
models `raise InsufficientStockError(str(e)) from e`: the exception type is
`InsufficientStockError` and the payload is the message of the wrapped
`ValueError` raised by `Product.reserve_stock`.  `valueError` models a
`ValueError` escaping from `Order.add_item` (not caught by the service). -/
inductive CreateOrderError where
  | productNotFound (productId : Nat)
  | insufficientStock (err : StockError)
  | valueError (msg : String)
deriving DecidableEq, Repr

/-- The per-item loop of `OrderService.create_order` (lines 41-61): look the
product up, reserve stock, append a snapshotting line, save the product; the
first failure aborts the loop, leaving the catalog as evolved so far. -/
def processItems (ps : List (Nat × Product)) (ord : Order) :
    List (Nat × Int) → List (Nat × Product) × Except CreateOrderError Order
  | [] => (ps, .ok ord)
  | (product_id, quantity) :: rest =>
    match dictGet ps product_id with
    | none => (ps, .error (.productNotFound product_id))
    | some product =>
      match product.reserve_stock quantity with
      | .error e => (ps, .error (.insufficientStock e))
      | .ok product2 =>
        match ord.add_item product2.id product2.name quantity product2.price with
        | .error msg => (ps, .error (.valueError msg))
        | .ok ord2 => processItems (dictPut ps product2.id product2) ord2 rest

/-- OrderService.create_order (src/services/order_service.py lines 21-66).
The fresh `uuid4` drawn for the order id is passed in as `oid`; on success the
assembled order is saved to the Order Store, on failure nothing is saved there
while the catalog keeps the decrements applied before the failure. -/
def create_order (s : SysState) (oid : Nat) (customer_id : Nat)
    (items : List (Nat × Int)) : SysState × Except CreateOrderError Order :=
  match processItems s.products
      { id := oid, customer_id := customer_id, items := [], status := .PENDING }
      items with
  | (ps2, .ok order2) =>
    ({ products := ps2, orders := dictPut s.orders order2.id order2 }, .ok order2)
  | (ps2, .error e) => ({ products := ps2, orders := s.orders }, .error e)

/-- OrderService.get_order_by_id: pass-through to the Order Store. -/
def get_order_by_id (s : SysState) (order_id : Nat) : Option Order :=
  dictGet s.orders order_id

/-- OrderService.cancel_order: delegates to the Order Store's `delete`. -/
def cancel_order (s : SysState) (order_id : Nat) : SysState × Bool :=
  let r := dictDelete s.orders order_id
  ({ s with orders := r.1 }, r.2)

/-- ProductRepository.save lifted to the system state: catalog upsert keyed by
the product's own id. -/
def product_repo_save (s : SysState) (p : Product) : SysState :=
  { s with products := dictPut s.products p.id p }

/-- Well-formedness of a catalog store: every entry is keyed by its product's
id and carries a non-negative price — both automatic for any store populated
through `ProductRepository.save` with products built by the Python dataclass
constructor. -/
def storeWF (ps : List (Nat × Product)) : Bool :=
  ps.all (fun kv => decide (kv.2.id = kv.1) && decide (0 ≤ kv.2.price))

/-- Sequential admissibility of a requested item list against a catalog,
mirroring the create_order loop: each product is found and has enough stock at
the moment its item is processed. -/
def validItems (ps : List (Nat × Product)) : List (Nat × Int) → Bool
  | [] => true
  | (pid, q) :: rest =>
    match dictGet ps pid with
    | none => false
    | some p =>
      decide (0 < q) && decide (q ≤ p.stock) &&
        validItems (dictPut ps p.id { p with stock := p.stock - q }) rest

/-- Total quantity requested for one product id across an item list. -/
def qtySum (items : List (Nat × Int)) (pid : Nat) : Int :=
  ((items.filter (fun it => it.1 == pid)).map (fun it => it.2)).sum

/-- Expected order total in the sense of the spec: sum over the items of the
catalog unit price times the quantity. -/
def specExpectedTotal (ps : List (Nat × Product))
    (items : List (Nat × Int)) : ℚ :=
  (items.map (fun it =>
    ((dictGet ps it.1).map Product.price).getD 0 * (it.2 : ℚ))).sum

/-- Seed catalog in the shape of src/api/main.py (UUIDs renamed to small
numbers; prices kept integral so that concrete witnesses can be checked by
kernel reduction). -/
def seedProducts : List (Nat × Product) :=
  [(1, { id := 1, name := "Laptop", description := "High-performance laptop",
         price := 1000, stock := 10 }),
   (2, { id := 2, name := "Mouse", description := "Wireless mouse",
         price := 30, stock := 50 }),
   (3, { id := 3, name := "Keyboard", description := "Mechanical keyboard",
         price := 90, stock := 25 })]

/-- Fresh system state holding the seed catalog and no orders. -/
def seedState : SysState :=
  { products := seedProducts, orders := [] }

/-- Small catalog with two distinct products in identical stock situations. -/
def twoProductState : SysState :=
  { products := [(1, { id := 1, name := "Alpha", description := "",
                       price := 1, stock := 5 }),
                 (2, { id := 2, name := "Beta", description := "",
                       price := 2, stock := 5 })],
    orders := [] }

/-- Sample product for entity-level witnesses. -/
def sampleProduct : Product :=
  { id := 7, name := "Widget", description := "", price := 5, stock := 10 }

/-- Sample pending one-line order for entity-level witnesses. -/
def pendingOrder : Order :=
  { id := 42, customer_id := 100,
    items := [{ product_id := 1, product_name := "Laptop", quantity := 1,
                price := 1000 }],
    status := .PENDING }

/-- State whose Order Store holds exactly one order, under key 42. -/
def oneOrderState : SysState :=
  { products := [], orders := [(42, pendingOrder)] }

/-- The order produced by `create_order seedState 500 100 [(1, 1)]`. -/
def demoOrder : Order :=
  { id := 500, customer_id := 100,
    items := [{ product_id := 1, product_name := "Laptop", quantity := 1,
                price := 1000 }],
    status := .PENDING }

/-! ### Dictionary lemmas -/

theorem dictGet_dictPut_self {α : Type} (d : List (Nat × α)) (k : Nat) (v : α) :
    dictGet (dictPut d k v) k = some v := by
  induction d with
  | nil => simp [dictGet, dictPut]
  | cons kv rest ih =>
    by_cases h : kv.1 = k
    · simp [dictPut, dictGet, h]
    · simp only [dictPut, dictGet]
      rw [if_neg h, dictGet, if_neg h]
      exact ih

theorem dictGet_dictPut_ne {α : Type} (d : List (Nat × α)) (k k2 : Nat) (v : α)
    (h : k2 ≠ k) : dictGet (dictPut d k v) k2 = dictGet d k2 := by
  induction d with
  | nil =>
    simp only [dictPut, dictGet]
    rw [if_neg (fun h2 => h h2.symm)]
  | cons kv rest ih =>
    by_cases hk : kv.1 = k
    · subst hk
      simp only [dictPut, if_pos rfl, dictGet]
      rw [if_neg (fun h2 => h h2.symm), if_neg (fun h2 => h h2.symm)]
    · simp only [dictPut, if_neg hk, dictGet]
      by_cases hk2 : kv.1 = k2
      · rw [if_pos hk2, if_pos hk2]
      · rw [if_neg hk2, if_neg hk2]
        exact ih

theorem dictGet_filter_ne_self {α : Type} (d : List (Nat × α)) (k : Nat) :
    dictGet (d.filter (fun kv => kv.1 != k)) k = none := by
  induction d with
  | nil => simp [dictGet]
  | cons kv rest ih =>
    by_cases h : kv.1 = k
    · simpa [List.filter, h] using ih
    · simp only [List.filter]
      rw [show (kv.1 != k) = true by simpa using h]
      simpa [dictGet, h] using ih

theorem storeWF_get {ps : List (Nat × Product)} (h : storeWF ps = true)
    {pid : Nat} {p : Product} (hg : dictGet ps pid = some p) :
    p.id = pid ∧ 0 ≤ p.price := by
  induction ps with
  | nil => simp [dictGet] at hg
  | cons kv rest ih =>
    simp only [storeWF, List.all_cons, Bool.and_eq_true, decide_eq_true_iff] at h
    simp only [dictGet] at hg
    by_cases hk : kv.1 = pid
    · rw [if_pos hk] at hg
      cases hg
      exact ⟨h.1.1.trans hk, h.1.2⟩
    · rw [if_neg hk] at hg
      exact ih h.2 hg

theorem storeWF_put {ps : List (Nat × Product)} (h : storeWF ps = true)
    {p : Product} (hp : 0 ≤ p.price) :
    storeWF (dictPut ps p.id p) = true := by
  induction ps with
  | nil => simp [dictPut, storeWF, hp]
  | cons kv rest ih =>
    simp only [storeWF, List.all_cons, Bool.and_eq_true, decide_eq_true_iff] at h
    have hrest : storeWF (dictPut rest p.id p) = true := ih h.2
    by_cases hk : kv.1 = p.id
    · simp only [dictPut, if_pos hk, storeWF, List.all_cons, Bool.and_eq_true,
        decide_eq_true_iff]
      exact ⟨⟨trivial, hp⟩, h.2⟩
    · simp only [dictPut, if_neg hk, storeWF, List.all_cons, Bool.and_eq_true,
        decide_eq_true_iff]
      exact ⟨h.1, hrest⟩

theorem qtySum_nil (pid : Nat) : qtySum [] pid = 0 := rfl

theorem qtySum_cons_self (k : Nat) (q : Int) (rest : List (Nat × Int)) :
    qtySum ((k, q) :: rest) k = q + qtySum rest k := by
  simp [qtySum, List.filter_cons]

theorem qtySum_cons_ne (k pid : Nat) (q : Int) (rest : List (Nat × Int))
    (h : k ≠ pid) : qtySum ((k, q) :: rest) pid = qtySum rest pid := by
  simp [qtySum, List.filter_cons, h]

theorem specExpectedTotal_nil (ps : List (Nat × Product)) :
    specExpectedTotal ps [] = 0 := rfl

theorem specExpectedTotal_cons (ps : List (Nat × Product)) (pid : Nat)
    (q : Int) (rest : List (Nat × Int)) :
    specExpectedTotal ps ((pid, q) :: rest) =
      ((dictGet ps pid).map Product.price).getD 0 * (q : ℚ) +
        specExpectedTotal ps rest := by
  simp [specExpectedTotal]

theorem specExpectedTotal_congr {ps1 ps2 : List (Nat × Product)}
    (h : ∀ pid, (dictGet ps1 pid).map Product.price =
                (dictGet ps2 pid).map Product.price) :
    ∀ items, specExpectedTotal ps1 items = specExpectedTotal ps2 items := by
  intro items
  induction items with
  | nil => rfl
  | cons it rest ih =>
    obtain ⟨pid, q⟩ := it
    rw [specExpectedTotal_cons, specExpectedTotal_cons, h pid, ih]

/-! ### Step lemmas for the create_order loop -/

theorem processItems_nil (ps : List (Nat × Product)) (ord : Order) :
    processItems ps ord [] = (ps, .ok ord) := rfl

theorem processItems_cons_notFound {ps : List (Nat × Product)} {ord : Order}
    {pid : Nat} {q : Int} {rest : List (Nat × Int)}
    (hg : dictGet ps pid = none) :
    processItems ps ord ((pid, q) :: rest) =
      (ps, .error (.productNotFound pid)) := by
  simp only [processItems, hg]

theorem processItems_cons_reserveFail {ps : List (Nat × Product)} {ord : Order}
    {pid : Nat} {q : Int} {rest : List (Nat × Int)} {p : Product}
    {e : StockError} (hg : dictGet ps pid = some p)
    (hr : p.reserve_stock q = .error e) :
    processItems ps ord ((pid, q) :: rest) =
      (ps, .error (.insufficientStock e)) := by
  simp only [processItems, hg, hr]

theorem processItems_cons_ok {ps : List (Nat × Product)} {ord : Order}
    {pid : Nat} {q : Int} {rest : List (Nat × Int)} {p p2 : Product}
    {ord2 : Order} (hg : dictGet ps pid = some p)
    (hr : p.reserve_stock q = .ok p2)
    (ha : ord.add_item p2.id p2.name q p2.price = .ok ord2) :
    processItems ps ord ((pid, q) :: rest) =
      processItems (dictPut ps p2.id p2) ord2 rest := by
  simp only [processItems, hg, hr, ha]

theorem reserve_stock_ok {p : Product} {q : Int} (hq : 0 < q)
    (hs : q ≤ p.stock) :
    p.reserve_stock q = .ok { p with stock := p.stock - q } := by
  unfold Product.reserve_stock
  rw [if_neg (by omega), if_neg (by omega)]

theorem add_item_ok (o : Order) (pid : Nat) (nm : String) {q : Int} {pr : ℚ}
    (hq : 0 < q) (hpr : 0 ≤ pr) :
    o.add_item pid nm q pr =
      .ok { o with items := o.items ++
        [{ product_id := pid
           product_name := nm
           quantity := q
           price := pr }] } := by
  unfold Order.add_item OrderItem.make
  rw [if_neg (by omega), if_neg (not_lt.mpr hpr)]
  rfl

theorem add_item_shape {o o2 : Order} {pid : Nat} {nm : String} {q : Int}
    {pr : ℚ} (h : o.add_item pid nm q pr = .ok o2) :
    o2.id = o.id ∧ o2.customer_id = o.customer_id ∧ o2.status = o.status ∧
      o2.items.length = o.items.length + 1 := by
  unfold Order.add_item at h
  cases hm : OrderItem.make pid nm q pr with
  | error e => rw [hm] at h; simp [Except.map] at h
  | ok it =>
    rw [hm] at h
    simp only [Except.map, Except.ok.injEq] at h
    subst h
    simp

theorem processItems_ok_shape :
    ∀ (items : List (Nat × Int)) (ps : List (Nat × Product)) (ord : Order)
      (ps2 : List (Nat × Product)) (ordr : Order),
      processItems ps ord items = (ps2, .ok ordr) →
      ordr.id = ord.id ∧ ordr.customer_id = ord.customer_id ∧
        ordr.status = ord.status ∧
        ordr.items.length = ord.items.length + items.length := by
  intro items
  induction items with
  | nil =>
    intro ps ord ps2 ordr h
    rw [processItems_nil, Prod.mk.injEq, Except.ok.injEq] at h
    rw [← h.2]
    simp
  | cons head rest ih =>
    obtain ⟨pid, q⟩ := head
    intro ps ord ps2 ordr h
    cases hg : dictGet ps pid with
    | none => rw [processItems_cons_notFound hg] at h; simp at h
    | some p =>
      cases hr : p.reserve_stock q with
      | error e => rw [processItems_cons_reserveFail hg hr] at h; simp at h
      | ok p2 =>
        cases ha : ord.add_item p2.id p2.name q p2.price with
        | error msg =>
          rw [show processItems ps ord ((pid, q) :: rest) =
              (ps, .error (.valueError msg)) by
            simp only [processItems, hg, hr, ha]] at h
          simp at h
        | ok ord2 =>
          rw [processItems_cons_ok hg hr ha] at h
          obtain ⟨h1, h2, h3, h4⟩ := ih _ _ _ _ h
          obtain ⟨g1, g2, g3, g4⟩ := add_item_shape ha
          refine ⟨h1.trans g1, h2.trans g2, h3.trans g3, ?_⟩
          rw [h4, g4]
          simp [Nat.add_assoc, Nat.add_comm 1 rest.length]

theorem processItems_append_ok :
    ∀ (its1 : List (Nat × Int)) (ps : List (Nat × Product)) (ord : Order)
      (ps1 : List (Nat × Product)) (ord1 : Order) (its2 : List (Nat × Int)),
      processItems ps ord its1 = (ps1, .ok ord1) →
      processItems ps ord (its1 ++ its2) = processItems ps1 ord1 its2 := by
  intro its1
  induction its1 with
  | nil =>
    intro ps ord ps1 ord1 its2 h
    rw [processItems_nil, Prod.mk.injEq, Except.ok.injEq] at h
    rw [List.nil_append, h.1, h.2]
  | cons head rest ih =>
    obtain ⟨pid, q⟩ := head
    intro ps ord ps1 ord1 its2 h
    cases hg : dictGet ps pid with
    | none => rw [processItems_cons_notFound hg] at h; simp at h
    | some p =>
      cases hr : p.reserve_stock q with
      | error e => rw [processItems_cons_reserveFail hg hr] at h; simp at h
      | ok p2 =>
        cases ha : ord.add_item p2.id p2.name q p2.price with
        | error msg =>
          rw [show processItems ps ord ((pid, q) :: rest) =
              (ps, .error (.valueError msg)) by
            simp only [processItems, hg, hr, ha]] at h
          simp at h
        | ok ord2 =>
          rw [processItems_cons_ok hg hr ha] at h
          rw [List.cons_append, processItems_cons_ok hg hr ha]
          exact ih _ _ _ _ _ h

/-! ### Main success-path lemma for the create_order loop -/

theorem processItems_valid_ok :
    ∀ (items : List (Nat × Int)) (ps : List (Nat × Product)) (ord : Order),
      storeWF ps = true → validItems ps items = true →
      ∃ ps2 lines,
        processItems ps ord items =
          (ps2, .ok { ord with items := ord.items ++ lines }) ∧
        storeWF ps2 = true ∧
        lines.length = items.length ∧
        (∀ (i pid : Nat) (q : Int), items[i]? = some (pid, q) →
          ∃ p, dictGet ps pid = some p ∧
            lines[i]? = some ({ product_id := p.id
                                product_name := p.name
                                quantity := q
                                price := p.price } : OrderItem)) ∧
        (lines.map OrderItem.subtotal).sum = specExpectedTotal ps items ∧
        (∀ pid p, dictGet ps pid = some p →
          dictGet ps2 pid = some { p with stock := p.stock - qtySum items pid }) ∧
        (∀ pid, dictGet ps pid = none → dictGet ps2 pid = none) := by
  intro items
  induction items with
  | nil =>
    intro ps ord hwf _hv
    refine ⟨ps, [], ?_, hwf, rfl, ?_, ?_, ?_, ?_⟩
    · simp [processItems_nil]
    · intro i pid q h
      simp at h
    · simp [specExpectedTotal]
    · intro pid p hg
      simpa [qtySum] using hg
    · exact fun pid h => h
  | cons head rest ih =>
    obtain ⟨pid, q⟩ := head
    intro ps ord hwf hv
    cases hg : dictGet ps pid with
    | none =>
      rw [validItems, hg] at hv
      simp at hv
    | some p0 =>
      rw [validItems, hg] at hv
      simp only [Bool.and_eq_true, decide_eq_true_iff] at hv
      obtain ⟨⟨hq0, hqs⟩, hv2⟩ := hv
      obtain ⟨hid, hpr⟩ := storeWF_get hwf hg
      have hres : p0.reserve_stock q = .ok { p0 with stock := p0.stock - q } :=
        reserve_stock_ok hq0 hqs
      have hadd : ord.add_item p0.id p0.name q p0.price =
          .ok { ord with items := ord.items ++
            [{ product_id := p0.id
               product_name := p0.name
               quantity := q
               price := p0.price }] } := add_item_ok ord p0.id p0.name hq0 hpr
      have hstep : processItems ps ord ((pid, q) :: rest) =
          processItems (dictPut ps p0.id { p0 with stock := p0.stock - q })
            { ord with items := ord.items ++
              [{ product_id := p0.id
                 product_name := p0.name
                 quantity := q
                 price := p0.price }] } rest :=
        processItems_cons_ok hg hres hadd
      have hwf1 : storeWF (dictPut ps p0.id { p0 with stock := p0.stock - q })
          = true := @storeWF_put ps hwf { p0 with stock := p0.stock - q } hpr
      obtain ⟨ps2, lines, heq, hwf2, hlen, hline, htot, hstock, hnone⟩ :=
        ih (dictPut ps p0.id { p0 with stock := p0.stock - q })
          { ord with items := ord.items ++
            [{ product_id := p0.id
               product_name := p0.name
               quantity := q
               price := p0.price }] } hwf1 hv2
      have hself : dictGet (dictPut ps p0.id { p0 with stock := p0.stock - q })
          pid = some { p0 with stock := p0.stock - q } := by
        rw [← hid]
        exact dictGet_dictPut_self ps p0.id _
      have hother : ∀ k, k ≠ pid →
          dictGet (dictPut ps p0.id { p0 with stock := p0.stock - q }) k =
            dictGet ps k := by
        intro k hk
        exact dictGet_dictPut_ne ps p0.id k _ (by rw [hid]; exact hk)
      refine ⟨ps2,
        { product_id := p0.id
          product_name := p0.name
          quantity := q
          price := p0.price } :: lines, ?_, hwf2, ?_, ?_, ?_, ?_, ?_⟩
      · rw [hstep, heq]
        simp
      · simp [hlen]
      · intro i pid2 q2 hi
        cases i with
        | zero =>
          simp only [List.getElem?_cons_zero, Option.some.injEq,
            Prod.mk.injEq] at hi
          obtain ⟨h1, h2⟩ := hi
          subst h1; subst h2
          exact ⟨p0, hg, by simp⟩
        | succ i =>
          simp only [List.getElem?_cons_succ] at hi ⊢
          obtain ⟨p, hp, hl⟩ := hline i pid2 q2 hi
          by_cases hpe : pid2 = pid
          · subst hpe
            rw [hself] at hp
            cases hp
            exact ⟨p0, hg, hl⟩
          · rw [hother pid2 hpe] at hp
            exact ⟨p, hp, hl⟩
      · simp only [List.map_cons, List.sum_cons]
        rw [htot]
        have hcongr : specExpectedTotal
            (dictPut ps p0.id { p0 with stock := p0.stock - q }) rest =
            specExpectedTotal ps rest := by
          apply specExpectedTotal_congr
          intro k
          by_cases hk : k = pid
          · subst hk
            rw [hself, hg]
            rfl
          · rw [hother k hk]
        rw [hcongr, specExpectedTotal_cons, hg]
        simp [OrderItem.subtotal]
      · intro k pa hpa
        by_cases hk : k = pid
        · rw [hk] at hpa ⊢
          rw [hg, Option.some.injEq] at hpa
          subst hpa
          have h5 := hstock pid _ hself
          rw [h5, Option.some.injEq, qtySum_cons_self]
          simp only [Product.mk.injEq, true_and]
          omega
        · have := hstock k pa (by rw [hother k hk]; exact hpa)
          rw [this, Option.some.injEq]
          rw [qtySum_cons_ne pid k q rest (fun h => hk h.symm)]
      · intro k hk
        have hkpid : k ≠ pid := by
          intro h
          rw [h, hg] at hk
          exact Option.noConfusion hk
        exact hnone k (by rw [hother k hkpid]; exact hk)

/-! ### Claim theorems: product and order entity level -/

/-- C3: for every product with stock s and every quantity q, reserve_stock
fails with the invalid-quantity ValueError when q ≤ 0, fails with the
insufficient-stock ValueError carrying available = s and requested = q when
0 < q and s < q, and succeeds turning the stock into s - q when 0 < q ≤ s;
on failure no updated product is produced, so the product is unchanged. -/
theorem claimC3_reserve_stock_trichotomy (p : Product) (q : Int) :
    (q ≤ 0 → p.reserve_stock q = .error .invalidQuantity) ∧
    (0 < q → p.stock < q →
      p.reserve_stock q = .error (.insufficient p.stock q)) ∧
    (0 < q → q ≤ p.stock →
      p.reserve_stock q = .ok { p with stock := p.stock - q }) := by
  refine ⟨?_, ?_, ?_⟩
  · intro h
    unfold Product.reserve_stock
    rw [if_pos h]
  · intro h1 h2
    unfold Product.reserve_stock
    rw [if_neg (by omega), if_pos h2]
  · intro h1 h2
    exact reserve_stock_ok h1 h2

/-- Witness for C3 at the sample product (stock 10). -/
theorem claimC3_witness :
    sampleProduct.reserve_stock 0 = .error .invalidQuantity ∧
    sampleProduct.reserve_stock 11 = .error (.insufficient 10 11) ∧
    sampleProduct.reserve_stock 4 = .ok { sampleProduct with stock := 6 } :=
  ⟨(claimC3_reserve_stock_trichotomy sampleProduct 0).1 (by decide),
   (claimC3_reserve_stock_trichotomy sampleProduct 11).2.1 (by decide)
     (by decide),
   (claimC3_reserve_stock_trichotomy sampleProduct 4).2.2 (by decide)
     (by decide)⟩

/-- C5: stock ≥ 0 and price ≥ 0 always hold: dataclass construction rejects
a negative price or stock, and each of reserve_stock / release_stock, when it
succeeds, yields a product again satisfying both bounds (when it fails it
produces no updated product, leaving the original untouched). -/
theorem claimC5_product_invariants (p : Product) (q : Int) (i : Nat)
    (nm ds : String) (pr : ℚ) (st : Int)
    (hp : 0 ≤ p.price) (hs : 0 ≤ p.stock) :
    (pr < 0 ∨ st < 0 → ∃ m, Product.make i nm ds pr st = .error m) ∧
    (∀ p2, Product.make i nm ds pr st = .ok p2 →
      0 ≤ p2.price ∧ 0 ≤ p2.stock) ∧
    (∀ p2, p.reserve_stock q = .ok p2 → 0 ≤ p2.price ∧ 0 ≤ p2.stock) ∧
    (∀ p2, p.release_stock q = .ok p2 → 0 ≤ p2.price ∧ 0 ≤ p2.stock) := by
  refine ⟨?_, ?_, ?_, ?_⟩
  · intro h
    unfold Product.make
    split_ifs with h1 h2 h3
    · exact ⟨_, rfl⟩
    · exact ⟨_, rfl⟩
    · exact ⟨_, rfl⟩
    · cases h with
      | inl hx => exact absurd hx h2
      | inr hx => exact absurd hx h3
  · intro p2 h2
    unfold Product.make at h2
    split_ifs at h2 with h1 hm2 hm3
    simp only [Except.ok.injEq] at h2
    rw [← h2]
    exact ⟨not_lt.mp hm2, not_lt.mp hm3⟩
  · intro p2 h2
    unfold Product.reserve_stock at h2
    split_ifs at h2 with h1 hm2
    simp only [Except.ok.injEq] at h2
    rw [← h2]
    refine ⟨hp, ?_⟩
    show (0 : Int) ≤ p.stock - q
    omega
  · intro p2 h2
    unfold Product.release_stock at h2
    split_ifs at h2 with h1
    simp only [Except.ok.injEq] at h2
    rw [← h2]
    refine ⟨hp, ?_⟩
    show (0 : Int) ≤ p.stock + q
    omega

/-- Witness for C5 at the sample product, quantity 3, and an attempted
construction with negative price. -/
theorem claimC5_witness :
    ((-1 : ℚ) < 0 ∨ (5 : Int) < 0 →
      ∃ m, Product.make 9 "Gadget" "" (-1) 5 = .error m) ∧
    (∀ p2, Product.make 9 "Gadget" "" (-1) 5 = .ok p2 →
      0 ≤ p2.price ∧ 0 ≤ p2.stock) ∧
    (∀ p2, sampleProduct.reserve_stock 3 = .ok p2 →
      0 ≤ p2.price ∧ 0 ≤ p2.stock) ∧
    (∀ p2, sampleProduct.release_stock 3 = .ok p2 →
      0 ≤ p2.price ∧ 0 ≤ p2.stock) :=
  claimC5_product_invariants sampleProduct 3 9 "Gadget" "" (-1) 5
    (by decide) (by decide)

/-- C6: confirm succeeds, setting the status to CONFIRMED, exactly when the
order is PENDING and has at least one line, and otherwise raises (the spec's
InvalidTransition) leaving the order unchanged; cancel succeeds, setting the
status to CANCELLED, exactly when the status is neither DELIVERED nor
CANCELLED, and otherwise raises leaving the order unchanged. -/
theorem claimC6_confirm_cancel (o : Order) :
    (o.status = .PENDING → o.items ≠ [] →
      o.confirm = .ok { o with status := .CONFIRMED }) ∧
    (o.items = [] ∨ o.status ≠ .PENDING → ∃ m, o.confirm = .error m) ∧
    (o.status ≠ .DELIVERED → o.status ≠ .CANCELLED →
      o.cancel = .ok { o with status := .CANCELLED }) ∧
    (o.status = .DELIVERED ∨ o.status = .CANCELLED →
      ∃ m, o.cancel = .error m) := by
  refine ⟨?_, ?_, ?_, ?_⟩
  · intro hst hne
    unfold Order.confirm
    rw [if_neg hne, if_neg (by simp [hst])]
  · intro h
    unfold Order.confirm
    by_cases he : o.items = []
    · rw [if_pos he]
      exact ⟨_, rfl⟩
    · have hst : o.status ≠ .PENDING := h.resolve_left he
      rw [if_neg he, if_pos hst]
      exact ⟨_, rfl⟩
  · intro h1 h2
    unfold Order.cancel
    rw [if_neg h1, if_neg h2]
  · intro h
    unfold Order.cancel
    by_cases hd : o.status = .DELIVERED
    · rw [if_pos hd]
      exact ⟨_, rfl⟩
    · have hc : o.status = .CANCELLED := h.resolve_left hd
      rw [if_neg hd, if_pos hc]
      exact ⟨_, rfl⟩

/-- Witness for C6 at a pending one-line order. -/
theorem claimC6_witness :
    pendingOrder.confirm = .ok { pendingOrder with status := .CONFIRMED } ∧
    pendingOrder.cancel = .ok { pendingOrder with status := .CANCELLED } :=
  ⟨(claimC6_confirm_cancel pendingOrder).1 (by decide) (by decide),
   (claimC6_confirm_cancel pendingOrder).2.2.1 (by decide) (by decide)⟩

/-- C10: for 0 < q ≤ stock, reserve_stock q followed by release_stock q
restores the product exactly; the intermediate product differs from the
original only in its stock, so id, name and price are unchanged. -/
theorem claimC10_reserve_release_roundtrip (p : Product) (q : Int)
    (hq : 0 < q) (hs : q ≤ p.stock) :
    p.reserve_stock q = .ok { p with stock := p.stock - q } ∧
    ({ p with stock := p.stock - q } : Product).release_stock q = .ok p ∧
    ({ p with stock := p.stock - q } : Product).id = p.id ∧
    ({ p with stock := p.stock - q } : Product).name = p.name ∧
    ({ p with stock := p.stock - q } : Product).price = p.price := by
  refine ⟨reserve_stock_ok hq hs, ?_, rfl, rfl, rfl⟩
  unfold Product.release_stock
  rw [if_neg (by omega)]
  have h2 : p.stock - q + q = p.stock := by omega
  show Except.ok { p with stock := p.stock - q + q } = Except.ok p
  rw [h2]

/-- Witness for C10 at the sample product and quantity 4. -/
theorem claimC10_witness :
    sampleProduct.reserve_stock 4 =
      .ok { sampleProduct with stock := sampleProduct.stock - 4 } ∧
    ({ sampleProduct with stock := sampleProduct.stock - 4 } :
        Product).release_stock 4 = .ok sampleProduct ∧
    ({ sampleProduct with stock := sampleProduct.stock - 4 } :
        Product).id = sampleProduct.id ∧
    ({ sampleProduct with stock := sampleProduct.stock - 4 } :
        Product).name = sampleProduct.name ∧
    ({ sampleProduct with stock := sampleProduct.stock - 4 } :
        Product).price = sampleProduct.price :=
  claimC10_reserve_release_roundtrip sampleProduct 4 (by decide) (by decide)

/-- C8: cancel_order on an id absent from the Order Store returns false and
leaves the whole state unchanged; on a present id it returns true and removes
the order, so a subsequent get_order_by_id on that id returns none. -/
theorem claimC8_cancel_order (s : SysState) (oid : Nat) :
    (dictGet s.orders oid = none → cancel_order s oid = (s, false)) ∧
    (∀ o, dictGet s.orders oid = some o →
      (cancel_order s oid).2 = true ∧
      get_order_by_id (cancel_order s oid).1 oid = none) := by
  constructor
  · intro h
    unfold cancel_order dictDelete
    rw [h]
    rfl
  · intro o h
    unfold cancel_order dictDelete get_order_by_id
    rw [h]
    exact ⟨rfl, dictGet_filter_ne_self s.orders oid⟩

/-- Witness for C8: deleting the present key 42 and the absent key 7. -/
theorem claimC8_witness :
    ((cancel_order oneOrderState 42).2 = true ∧
      get_order_by_id (cancel_order oneOrderState 42).1 42 = none) ∧
    cancel_order oneOrderState 7 = (oneOrderState, false) :=
  ⟨(claimC8_cancel_order oneOrderState 42).2 pendingOrder (by rfl),
   (claimC8_cancel_order oneOrderState 7).1 (by rfl)⟩

/-- Catalog product 1 of the seed state, spelled out. -/
def seedLaptop : Product :=
  { id := 1, name := "Laptop", description := "High-performance laptop",
    price := 1000, stock := 10 }

/-- A later catalog overwrite of product 1 with a new name and price. -/
def renamedLaptop : Product :=
  { id := 1, name := "Renamed laptop", description := "", price := 1,
    stock := 77 }

/-! ### Claim theorems: the create_order workflow -/

/-- C1: for a call whose item list is sequentially admissible against a
well-formed catalog (each product present with sufficient positive-quantity
stock at its turn, as the loop checks it), create_order succeeds: the
returned order is PENDING, owned by the customer, carries one line per
requested item in input order, each line snapshotting the catalog product's
name and unit price; its total is the exact rational sum of unit price times
quantity over the items; each catalog product's stock has dropped by the
summed quantity of its lines; and the order is persisted under its id. -/
theorem claimC1_create_order_success (s : SysState) (oid c : Nat)
    (items : List (Nat × Int))
    (hwf : storeWF s.products = true)
    (hv : validItems s.products items = true) :
    ∃ s2 o, create_order s oid c items = (s2, .ok o) ∧
      o.status = .PENDING ∧
      o.customer_id = c ∧
      o.id = oid ∧
      o.items.length = items.length ∧
      (∀ (i pid : Nat) (q : Int), items[i]? = some (pid, q) →
        ∃ p, dictGet s.products pid = some p ∧
          o.items[i]? = some ({ product_id := p.id
                                product_name := p.name
                                quantity := q
                                price := p.price } : OrderItem)) ∧
      o.calculate_total = specExpectedTotal s.products items ∧
      (∀ pid p, dictGet s.products pid = some p →
        dictGet s2.products pid =
          some { p with stock := p.stock - qtySum items pid }) ∧
      dictGet s2.orders oid = some o := by
  obtain ⟨ps2, lines, heq, hwf2, hlen, hline, htot, hstock, hnone⟩ :=
    processItems_valid_ok items s.products
      { id := oid, customer_id := c, items := [], status := .PENDING } hwf hv
  have hcreate : create_order s oid c items =
      ({ products := ps2, orders := dictPut s.orders oid
          { id := oid, customer_id := c, items := lines, status := .PENDING } },
       .ok { id := oid, customer_id := c, items := lines,
             status := .PENDING }) := by
    unfold create_order
    rw [heq]
    rfl
  refine ⟨_, _, hcreate, rfl, rfl, rfl, hlen, hline, htot, hstock, ?_⟩
  exact dictGet_dictPut_self s.orders oid _

/-- Witness for C1: two items against the seed catalog. -/
theorem claimC1_witness :
    ∃ s2 o, create_order seedState 500 100 [(1, 1), (2, 2)] = (s2, .ok o) ∧
      o.status = .PENDING ∧
      o.customer_id = 100 ∧
      o.id = 500 ∧
      o.items.length = ([(1, 1), (2, 2)] : List (Nat × Int)).length ∧
      (∀ (i pid : Nat) (q : Int),
        ([(1, 1), (2, 2)] : List (Nat × Int))[i]? = some (pid, q) →
        ∃ p, dictGet seedState.products pid = some p ∧
          o.items[i]? = some ({ product_id := p.id
                                product_name := p.name
                                quantity := q
                                price := p.price } : OrderItem)) ∧
      o.calculate_total = specExpectedTotal seedState.products [(1, 1), (2, 2)] ∧
      (∀ pid p, dictGet seedState.products pid = some p →
        dictGet s2.products pid =
          some { p with stock := p.stock - qtySum [(1, 1), (2, 2)] pid }) ∧
      dictGet s2.orders 500 = some o :=
  claimC1_create_order_success seedState 500 100 [(1, 1), (2, 2)]
    (by decide) (by decide)

/-- C9: orders snapshot the catalog: after a successful create_order, saving
any product to the catalog afterwards (a rename or price change of a product
the order references included) leaves the persisted order untouched —
get_order_by_id returns the very same order, with the same lines and hence
the same total, and the whole Order Store is unaffected by the catalog
write. -/
theorem claimC9_snapshot_isolation (s : SysState) (oid c : Nat)
    (items : List (Nat × Int)) (s2 : SysState) (o : Order) (p : Product)
    (h : create_order s oid c items = (s2, .ok o)) :
    get_order_by_id s2 o.id = some o ∧
    get_order_by_id (product_repo_save s2 p) o.id = some o ∧
    (product_repo_save s2 p).orders = s2.orders := by
  unfold create_order at h
  rcases hpi : processItems s.products
      { id := oid, customer_id := c, items := [], status := .PENDING } items
    with ⟨ps2, res⟩
  rw [hpi] at h
  cases res with
  | error e => simp at h
  | ok ord2 =>
    simp only [Prod.mk.injEq, Except.ok.injEq] at h
    obtain ⟨hs2, ho⟩ := h
    subst hs2
    subst ho
    refine ⟨?_, ?_, rfl⟩
    · exact dictGet_dictPut_self s.orders ord2.id ord2
    · exact dictGet_dictPut_self s.orders ord2.id ord2

/-- Witness for C9: create an order for the laptop, then overwrite the
laptop's catalog entry with a renamed, repriced product. -/
theorem claimC9_witness :
    get_order_by_id (create_order seedState 500 100 [(1, 1)]).1 demoOrder.id =
      some demoOrder ∧
    get_order_by_id (product_repo_save
        (create_order seedState 500 100 [(1, 1)]).1 renamedLaptop)
      demoOrder.id = some demoOrder ∧
    (product_repo_save (create_order seedState 500 100 [(1, 1)]).1
      renamedLaptop).orders = (create_order seedState 500 100 [(1, 1)]).1.orders :=
  claimC9_snapshot_isolation seedState 500 100 [(1, 1)]
    (create_order seedState 500 100 [(1, 1)]).1 demoOrder renamedLaptop (by rfl)

/-- C2 (amended): when, after a successfully processed prefix, the next item
fails — product absent from the catalog, or reserve_stock raising — the whole
operation fails with the corresponding typed error: ProductNotFoundError
carrying the product id, or InsufficientStockError wrapping the reserve
failure, which carries the available and requested quantities but not the
product id.  No order is written to the Order Store, and the catalog keeps
exactly the decrements of the processed prefix — nothing is rolled back. -/
theorem claimC2_failure_no_order_no_rollback (s : SysState) (oid c : Nat)
    (pre rest : List (Nat × Int)) (pid : Nat) (q : Int)
    (ps1 : List (Nat × Product)) (ord1 : Order)
    (hpre : processItems s.products
        { id := oid, customer_id := c, items := [], status := .PENDING } pre =
        (ps1, .ok ord1)) :
    (dictGet ps1 pid = none →
      create_order s oid c (pre ++ (pid, q) :: rest) =
        ({ products := ps1, orders := s.orders },
         .error (.productNotFound pid))) ∧
    (∀ p e, dictGet ps1 pid = some p → p.reserve_stock q = .error e →
      create_order s oid c (pre ++ (pid, q) :: rest) =
        ({ products := ps1, orders := s.orders },
         .error (.insufficientStock e))) := by
  constructor
  · intro hg
    unfold create_order
    rw [processItems_append_ok pre _ _ _ _ _ hpre,
        processItems_cons_notFound hg]
  · intro p e hg hr
    unfold create_order
    rw [processItems_append_ok pre _ _ _ _ _ hpre,
        processItems_cons_reserveFail hg hr]

/-- C2 counterexample: two calls failing at two distinct products produce
the very same error value, so the InsufficientStockError the caller receives
does not identify the offending product (it only carries available and
requested, matching the Python message "Insufficient stock: 5 available,
7 requested"). -/
theorem claimC2_counterexample :
    (create_order twoProductState 11 100 [(1, 7)]).2 =
      .error (.insufficientStock (.insufficient 5 7)) ∧
    (create_order twoProductState 12 100 [(2, 7)]).2 =
      .error (.insufficientStock (.insufficient 5 7)) ∧
    (1 : Nat) ≠ 2 :=
  ⟨rfl, rfl, by decide⟩

/-- Witness for C2: a one-item call for an absent product, and a one-item
call exceeding stock, both after the empty prefix against the seed state. -/
theorem claimC2_witness :
    create_order seedState 600 100 ([] ++ (99, 1) :: []) =
      ({ products := seedState.products, orders := seedState.orders },
       .error (.productNotFound 99)) ∧
    create_order seedState 601 100 ([] ++ (1, 999) :: []) =
      ({ products := seedState.products, orders := seedState.orders },
       .error (.insufficientStock (.insufficient 10 999))) :=
  ⟨(claimC2_failure_no_order_no_rollback seedState 600 100 [] [] 99 1
      seedState.products
      { id := 600, customer_id := 100, items := [], status := .PENDING }
      rfl).1 rfl,
   (claimC2_failure_no_order_no_rollback seedState 601 100 [] [] 1 999
      seedState.products
      { id := 601, customer_id := 100, items := [], status := .PENDING }
      rfl).2 seedLaptop (.insufficient 10 999) rfl rfl⟩

/-- C7 (amended): an item naming an in-catalog product with non-positive
quantity makes create_order fail before any store state is modified for that
item — the catalog stays exactly as after the processed prefix and no order
is written — but the error raised is an InsufficientStockError wrapping the
invalid-quantity ValueError ("Quantity must be positive"), not a distinct
InvalidQuantity / InvalidLineItem error type. -/
theorem claimC7_nonpositive_quantity (s : SysState) (oid c : Nat)
    (pre rest : List (Nat × Int)) (pid : Nat) (q : Int)
    (ps1 : List (Nat × Product)) (ord1 : Order) (p : Product)
    (hpre : processItems s.products
        { id := oid, customer_id := c, items := [], status := .PENDING } pre =
        (ps1, .ok ord1))
    (hg : dictGet ps1 pid = some p) (hq : q ≤ 0) :
    create_order s oid c (pre ++ (pid, q) :: rest) =
      ({ products := ps1, orders := s.orders },
       .error (.insufficientStock .invalidQuantity)) := by
  unfold create_order
  have hr : p.reserve_stock q = .error .invalidQuantity := by
    unfold Product.reserve_stock
    rw [if_pos hq]
  rw [processItems_append_ok pre _ _ _ _ _ hpre,
      processItems_cons_reserveFail hg hr]

/-- C7 counterexample: quantity 0 for a product present in the catalog is
rejected with the InsufficientStockError exception type (wrapping the
invalid-quantity message), not with a distinct InvalidQuantity error. -/
theorem claimC7_counterexample :
    (create_order seedState 103 100 [(1, 0)]).2 =
      .error (.insufficientStock .invalidQuantity) := rfl

/-- Witness for C7: quantity 0 for the seeded laptop after the empty
prefix. -/
theorem claimC7_witness :
    create_order seedState 103 100 ([] ++ (1, 0) :: []) =
      ({ products := seedState.products, orders := seedState.orders },
       .error (.insufficientStock .invalidQuantity)) :=
  claimC7_nonpositive_quantity seedState 103 100 [] [] 1 0
    seedState.products
    { id := 103, customer_id := 100, items := [], status := .PENDING }
    seedLaptop rfl rfl (by decide)

/-- C4 (amended): a create_order call with at least one requested item never
puts a zero-line order into the Order Store: if every order in the store has
at least one line before the call, every order in the store after the call
(whether it succeeded or failed) has at least one line.  A call with an
empty item list, by contrast, completes and persists a zero-line order — see
the counterexample. -/
theorem claimC4_no_empty_order_persisted (s : SysState) (oid c : Nat)
    (items : List (Nat × Int)) (k : Nat) (o : Order)
    (hne : items ≠ [])
    (hinv : ∀ k2 o2, dictGet s.orders k2 = some o2 → o2.items ≠ [])
    (hmem : dictGet ((create_order s oid c items).1).orders k = some o) :
    o.items ≠ [] := by
  unfold create_order at hmem
  rcases hpi : processItems s.products
      { id := oid, customer_id := c, items := [], status := .PENDING } items
    with ⟨ps2, res⟩
  rw [hpi] at hmem
  cases res with
  | error e => exact hinv k o hmem
  | ok ord2 =>
    change dictGet (dictPut s.orders ord2.id ord2) k = some o at hmem
    by_cases hk : k = ord2.id
    · subst hk
      rw [dictGet_dictPut_self s.orders ord2.id ord2] at hmem
      injection hmem with h2
      subst h2
      obtain ⟨-, -, -, hlen⟩ := processItems_ok_shape items _ _ _ _ hpi
      simp only [List.length_nil, Nat.zero_add] at hlen
      intro hemp
      rw [hemp] at hlen
      exact hne (List.length_eq_zero.mp hlen.symm)
    · rw [dictGet_dictPut_ne s.orders ord2.id k ord2 hk] at hmem
      exact hinv k o hmem

/-- C4 counterexample: a create_order call with an empty item list completes
successfully and persists an order with zero lines in the Order Store. -/
theorem claimC4_counterexample :
    dictGet ((create_order seedState 104 100 []).1).orders 104 =
      some { id := 104, customer_id := 100, items := [],
             status := .PENDING } ∧
    ({ id := 104, customer_id := 100, items := [],
       status := .PENDING } : Order).items.length = 0 :=
  ⟨rfl, rfl⟩

/-- Witness for C4: a one-item call against the seed state with its empty
Order Store; the order persisted under the fresh id has a nonempty line
list. -/
theorem claimC4_witness :
    ({ id := 501, customer_id := 100,
       items := [{ product_id := 1, product_name := "Laptop", quantity := 1,
                   price := 1000 }],
       status := .PENDING } : Order).items ≠ [] :=
  claimC4_no_empty_order_persisted seedState 501 100 [(1, 1)] 501 _
    (by decide) (fun k2 o2 h => by simp [seedState, dictGet] at h) (by rfl)
